import Mathlib

/-!
Verification of the document ingestion status-reconciliation and job
lifecycle engine of the ingest service.

The definitions below are a shallow embedding of the Python source:
- `app/api/v1/endpoints/ingest.py` (ingest-service): `upload_document`,
  `get_document_status` (whose drift-repair steps 2-4 are modelled by
  `reconcileChecks` / `afterRead` / `reconcileWrites`), `retry_ingestion`;
- `app/tasks/process_document.py`: the Celery task configuration
  (`processDocumentTaskConfig`), the `async_process` body, and the
  chunk-count extraction from the Haystack pipeline result
  (`extractProcessedCount`).
External backends (PostgreSQL metadata store, MinIO object store, Milvus
vector store, Celery queue) are modelled by their observable outcomes:
each operation takes the outcomes of its backend calls as parameters and
returns its result together with the list of side effects it issued.
-/

/-- Document lifecycle states, from `app.models.domain.DocumentStatus`
(values `pending`, `uploaded`, `processing`, `processed`, `error` as used
throughout the endpoints and the task). -/
inductive DocumentStatus where
  | pending
  | uploaded
  | processing
  | processed
  | error
deriving DecidableEq, Repr

/-- The slice of a document's metadata-store row that the reconciliation
and retry logic reads and writes: `status`, `chunk_count`,
`error_message`, `minio_object_name` (the object-store path). -/
structure DocRecord where
  status : DocumentStatus
  chunk_count : Option Nat
  error_message : Option String
  minio_object_name : Option String
deriving DecidableEq, Repr

/-- Result of the drift-detection phase of `get_document_status`
(the local variables `needs_update`, `updated_status`,
`updated_chunk_count`, `final_error_message` at the end of step 3). -/
structure ReconcileResult where
  needs_update : Bool
  updated_status : DocumentStatus
  updated_chunk_count : Option Nat
  final_error_message : Option String
deriving DecidableEq, Repr

/-- Membership test `status in [DocumentStatus.ERROR, DocumentStatus.PENDING]`
used by the MinIO rule of `get_document_status` (line 428; the nested
`if updated_status != DocumentStatus.ERROR` on line 430 is subsumed). -/
def DocumentStatus.isErrorOrPending : DocumentStatus → Bool
  | .error => true
  | .pending => true
  | _ => false

/-- Steps 2 and 3 of `get_document_status` in
`ingest-service/app/api/v1/endpoints/ingest.py` (lines 419-479): the
MinIO existence rule followed by the Milvus chunk-count rules.
`minio_exists` is the result of `check_file_exists_async` (only consulted
when the record has an object name; a record without one skips the rule
and reports `exists = False`). `milvus_chunk_count` is the result of
`_get_milvus_chunk_count_sync`: `none` models the `-1` sentinel returned
when the count check fails, `some n` a successful count `n`. -/
def reconcileChecks (doc : DocRecord) (minio_exists : Bool)
    (milvus_chunk_count : Option Nat) : ReconcileResult :=
  -- Step 2: `if not minio_exists and updated_status not in [ERROR, PENDING]`
  -- (guarded by the record actually having a `minio_object_name`).
  let minioFires : Bool :=
    doc.minio_object_name.isSome && !minio_exists && !doc.status.isErrorOrPending
  let s1 : DocumentStatus := if minioFires then .error else doc.status
  let m1 : Option String :=
    if minioFires then some "File missing from storage." else doc.error_message
  -- Step 3: the `milvus_chunk_count` elif-chain.
  match milvus_chunk_count with
  | none =>
    -- `if milvus_chunk_count == -1: ... if updated_status != ERROR`
    if s1 = DocumentStatus.error then
      { needs_update := minioFires, updated_status := s1,
        updated_chunk_count := doc.chunk_count, final_error_message := m1 }
    else
      { needs_update := true, updated_status := .error,
        updated_chunk_count := doc.chunk_count,
        final_error_message :=
          some (m1.getD "" ++ " Failed to verify processed data (Milvus count error).") }
  | some n =>
    -- `elif milvus_chunk_count > 0 and updated_status == UPLOADED`
    if 0 < n ∧ s1 = DocumentStatus.uploaded then
      { needs_update := true, updated_status := .processed,
        updated_chunk_count := some n, final_error_message := none }
    -- `elif milvus_chunk_count == 0 and updated_status == PROCESSED`
    else if n = 0 ∧ s1 = DocumentStatus.processed then
      { needs_update := true, updated_status := .error,
        updated_chunk_count := some 0,
        final_error_message :=
          some (m1.getD "" ++ " Processed data missing (Milvus count is 0).") }
    -- `elif updated_status == PROCESSED`
    else if s1 = DocumentStatus.processed then
      match doc.chunk_count with
      | none =>
        { needs_update := true, updated_status := s1,
          updated_chunk_count := some n, final_error_message := m1 }
      | some c =>
        if c ≠ n then
          { needs_update := true, updated_status := s1,
            updated_chunk_count := some n, final_error_message := m1 }
        else
          { needs_update := minioFires, updated_status := s1,
            updated_chunk_count := some c, final_error_message := m1 }
    else
      { needs_update := minioFires, updated_status := s1,
        updated_chunk_count := doc.chunk_count, final_error_message := m1 }

/-- Modelled from the spec: the Metadata Store contract of §6 says
`update_status` is an overwrite, not an increment (the implementation,
`app.db.postgres_client.update_document_status`, is not part of the
provided sources). Applying a reconciliation write overwrites `status`,
`chunk_count` and `error_message` with the values passed to
`update_document_status` in step 4 of `get_document_status`. -/
def applyStatusUpdate (doc : DocRecord) (r : ReconcileResult) : DocRecord :=
  { doc with
    status := r.updated_status,
    chunk_count := r.updated_chunk_count,
    error_message := r.final_error_message }

/-- The metadata-store row after one reconciling status read: step 4 of
`get_document_status` writes back exactly when `needs_update` is set. -/
def afterRead (doc : DocRecord) (minio_exists : Bool)
    (milvus_chunk_count : Option Nat) : DocRecord :=
  let r := reconcileChecks doc minio_exists milvus_chunk_count
  if r.needs_update then applyStatusUpdate doc r else doc

/-- Observable side effects of the modelled operations. -/
inductive Effect where
  | dbCreate (st : DocumentStatus)
  | dbUpdate (st : DocumentStatus) (chunk : Option Nat) (err : Option String)
  | minioPut (objectName : String) (numBytes : Nat)
  | enqueueTask (documentId : String)
deriving DecidableEq, Repr

/-- Whether an effect is an object-store write. -/
def Effect.isObjectStoreWrite : Effect → Bool
  | .minioPut _ _ => true
  | _ => false

/-- The metadata-store writes issued by one reconciling status read:
step 4 of `get_document_status` calls `update_document_status` once iff
`needs_update`, with the computed status, chunk count and message. -/
def reconcileWrites (doc : DocRecord) (minio_exists : Bool)
    (milvus_chunk_count : Option Nat) : List Effect :=
  let r := reconcileChecks doc minio_exists milvus_chunk_count
  if r.needs_update then
    [Effect.dbUpdate r.updated_status r.updated_chunk_count r.final_error_message]
  else []

section ReconcilerTheorems

/-- Claim C1: for every document whose stored status is UPLOADED and whose
stored object exists, if the live vector-store chunk count is greater
than 0, the status reconciliation performed by a status read sets the
document's status to PROCESSED, sets chunk_count to the live count, and
clears error_message. -/
theorem reconcile_uploaded_with_live_chunks_promotes
    (doc : DocRecord) (p : String) (n : Nat)
    (hs : doc.status = DocumentStatus.uploaded)
    (hp : doc.minio_object_name = some p)
    (hn : 0 < n) :
    (afterRead doc true (some n)).status = DocumentStatus.processed ∧
    (afterRead doc true (some n)).chunk_count = some n ∧
    (afterRead doc true (some n)).error_message = none ∧
    reconcileWrites doc true (some n) =
      [Effect.dbUpdate DocumentStatus.processed (some n) none] := by
  simp [afterRead, reconcileChecks, applyStatusUpdate, reconcileWrites, hs, hn]

/-- Witness for C1: the spec's own example, live vector count 12 on an
UPLOADED record. -/
theorem reconcile_uploaded_with_live_chunks_promotes_witness :
    (afterRead ⟨.uploaded, none, some "old failure", some "t/d/report.pdf"⟩
        true (some 12)).status = DocumentStatus.processed ∧
    (afterRead ⟨.uploaded, none, some "old failure", some "t/d/report.pdf"⟩
        true (some 12)).chunk_count = some 12 ∧
    (afterRead ⟨.uploaded, none, some "old failure", some "t/d/report.pdf"⟩
        true (some 12)).error_message = none ∧
    reconcileWrites ⟨.uploaded, none, some "old failure", some "t/d/report.pdf"⟩
        true (some 12) =
      [Effect.dbUpdate DocumentStatus.processed (some 12) none] :=
  reconcile_uploaded_with_live_chunks_promotes
    ⟨.uploaded, none, some "old failure", some "t/d/report.pdf"⟩
    "t/d/report.pdf" 12 rfl rfl (by decide)

/-- Helper: appending a suffix of positive length never yields the empty
string. -/
theorem append_suffix_ne_empty (a b : String) (hb : b.length ≠ 0) :
    a ++ b ≠ "" := by
  intro h
  have hlen := congrArg String.length h
  rw [String.length_append, String.length_empty] at hlen
  omega

/-- Claim C2: for every document whose stored status is PROCESSED and
whose stored object exists, a successful live chunk count of exactly 0
makes the reconciling read set status to ERROR, chunk_count to 0, and
store a non-empty error message mentioning that processed data is
missing. -/
theorem reconcile_processed_with_zero_live_chunks_demotes
    (doc : DocRecord) (p : String)
    (hs : doc.status = DocumentStatus.processed)
    (hp : doc.minio_object_name = some p) :
    (afterRead doc true (some 0)).status = DocumentStatus.error ∧
    (afterRead doc true (some 0)).chunk_count = some 0 ∧
    (afterRead doc true (some 0)).error_message =
      some (doc.error_message.getD "" ++ " Processed data missing (Milvus count is 0).") ∧
    doc.error_message.getD "" ++ " Processed data missing (Milvus count is 0)." ≠ "" := by
  have h4 : doc.error_message.getD "" ++
      " Processed data missing (Milvus count is 0)." ≠ "" :=
    append_suffix_ne_empty _ _ (by decide)
  refine ⟨?_, ?_, ?_, h4⟩ <;>
    simp [afterRead, reconcileChecks, applyStatusUpdate, DocumentStatus.isErrorOrPending, hs]

/-- Witness for C2: the spec's own example, stored chunk_count 12 and
live vector count 0 on a PROCESSED record. -/
theorem reconcile_processed_with_zero_live_chunks_demotes_witness :
    (afterRead ⟨.processed, some 12, none, some "t/d/report.pdf"⟩
        true (some 0)).status = DocumentStatus.error ∧
    (afterRead ⟨.processed, some 12, none, some "t/d/report.pdf"⟩
        true (some 0)).chunk_count = some 0 ∧
    (afterRead ⟨.processed, some 12, none, some "t/d/report.pdf"⟩
        true (some 0)).error_message =
      some ((Option.getD (α := String) none "") ++
        " Processed data missing (Milvus count is 0).") ∧
    (Option.getD (α := String) none "") ++
        " Processed data missing (Milvus count is 0)." ≠ "" :=
  reconcile_processed_with_zero_live_chunks_demotes
    ⟨.processed, some 12, none, some "t/d/report.pdf"⟩ "t/d/report.pdf" rfl rfl

/-- Claim C3: for every document whose stored status is not ERROR or
PENDING and whose object is missing from the object store, the
reconciling read forces status ERROR with message
"File missing from storage." for every live chunk-count outcome — in
particular a live count greater than 0 on an UPLOADED record does not
promote to PROCESSED: the missing-object rule supersedes it. -/
theorem reconcile_missing_object_forces_error
    (doc : DocRecord) (p : String) (c : Option Nat)
    (hs : doc.status ≠ DocumentStatus.error)
    (hq : doc.status ≠ DocumentStatus.pending)
    (hp : doc.minio_object_name = some p) :
    (afterRead doc false c).status = DocumentStatus.error ∧
    (afterRead doc false c).error_message = some "File missing from storage." := by
  cases h : doc.status <;>
    cases c <;>
      simp_all [afterRead, reconcileChecks, applyStatusUpdate,
        DocumentStatus.isErrorOrPending]

/-- Witness for C3: an UPLOADED record whose object is gone while the
vector store reports 12 live chunks still reconciles to ERROR with the
missing-storage message. -/
theorem reconcile_missing_object_forces_error_witness :
    (afterRead ⟨.uploaded, none, none, some "t/d/report.pdf"⟩
        false (some 12)).status = DocumentStatus.error ∧
    (afterRead ⟨.uploaded, none, none, some "t/d/report.pdf"⟩
        false (some 12)).error_message = some "File missing from storage." :=
  reconcile_missing_object_forces_error
    ⟨.uploaded, none, none, some "t/d/report.pdf"⟩ "t/d/report.pdf" (some 12)
    (by decide) (by decide) rfl

/-- Helper for C4: a record already in ERROR never triggers a
reconciliation write (no rule fires on an ERROR record). -/
theorem reconcileChecks_error_no_update (doc : DocRecord) (e : Bool)
    (c : Option Nat) (hs : doc.status = DocumentStatus.error) :
    (reconcileChecks doc e c).needs_update = false := by
  cases c <;> simp [reconcileChecks, DocumentStatus.isErrorOrPending, hs]

/-- Helper for C4: a PROCESSED record whose stored chunk count equals the
positive live count, with the MinIO rule not firing, triggers no
reconciliation write. -/
theorem reconcileChecks_processed_synced_no_update (doc : DocRecord)
    (e : Bool) (n : Nat)
    (hs : doc.status = DocumentStatus.processed)
    (hc : doc.chunk_count = some n)
    (hm : (doc.minio_object_name.isSome && !e) = false)
    (hn : n ≠ 0) :
    (reconcileChecks doc e (some n)).needs_update = false := by
  simp [reconcileChecks, DocumentStatus.isErrorOrPending, hs, hc, hm, hn]

set_option maxHeartbeats 800000 in
/-- Helper for C4: whenever a reconciliation rule fires, the status it
writes is either ERROR or PROCESSED, and in the PROCESSED case the live
count is a positive `some n` written as the new chunk count while the
MinIO rule did not fire. -/
theorem reconcileChecks_update_cases (doc : DocRecord) (e : Bool)
    (c : Option Nat) :
    (reconcileChecks doc e c).updated_status = DocumentStatus.error ∨
    ((reconcileChecks doc e c).updated_status = DocumentStatus.processed ∧
      ∃ n, c = some n ∧ n ≠ 0 ∧
        (reconcileChecks doc e c).updated_chunk_count = some n ∧
        (doc.minio_object_name.isSome && !e) = false) ∨
    (reconcileChecks doc e c).needs_update = false := by
  obtain ⟨s, cc, em, op⟩ := doc
  cases c with
  | none =>
    cases s <;> cases op <;> cases e <;>
      simp [reconcileChecks, DocumentStatus.isErrorOrPending]
  | some n =>
    cases s <;> cases op <;> cases e <;> cases cc <;>
      simp [reconcileChecks, DocumentStatus.isErrorOrPending] <;>
        split_ifs <;> simp_all <;> omega

/-- Claim C4: reconciliation is idempotent. A status read writes back
only when `needs_update` is set by a rule, and after one reconciling
read the repaired record no longer triggers any rule under the same live
evidence: the second consecutive read issues no metadata-store write. -/
theorem reconcile_second_read_performs_no_write
    (doc : DocRecord) (minio_exists : Bool) (milvus_chunk_count : Option Nat) :
    reconcileWrites (afterRead doc minio_exists milvus_chunk_count)
      minio_exists milvus_chunk_count = [] := by
  have hmain : (reconcileChecks (afterRead doc minio_exists milvus_chunk_count)
      minio_exists milvus_chunk_count).needs_update = false := by
    by_cases h1 : (reconcileChecks doc minio_exists milvus_chunk_count).needs_update = true
    · have hw : afterRead doc minio_exists milvus_chunk_count =
          applyStatusUpdate doc (reconcileChecks doc minio_exists milvus_chunk_count) := by
        simp [afterRead, h1]
      rcases reconcileChecks_update_cases doc minio_exists milvus_chunk_count with
        herr | ⟨hproc, n, hc, hn, hcc, hm⟩ | hno
      · exact reconcileChecks_error_no_update _ _ _ (by rw [hw]; simpa [applyStatusUpdate] using herr)
      · subst hc
        refine reconcileChecks_processed_synced_no_update _ _ n ?_ ?_ ?_ hn
        · rw [hw]; simpa [applyStatusUpdate] using hproc
        · rw [hw]; simpa [applyStatusUpdate] using hcc
        · rw [hw]; simpa [applyStatusUpdate] using hm
      · rw [h1] at hno; cases hno
    · have h1' : (reconcileChecks doc minio_exists milvus_chunk_count).needs_update = false := by
        revert h1
        cases (reconcileChecks doc minio_exists milvus_chunk_count).needs_update <;> simp
      have hid : afterRead doc minio_exists milvus_chunk_count = doc := by
        simp [afterRead, h1']
      rw [hid]
      exact h1'
  simp [reconcileWrites, hmain]

end ReconcilerTheorems

/-- A row of the `documents` table as seen by the duplicate check of
`upload_document`: identity, owning company, file name and status. -/
structure StoredDoc where
  id : String
  company_id : String
  file_name : String
  status : DocumentStatus
deriving DecidableEq, Repr

/-- Modelled from the spec: `app.db.postgres_client.find_document_by_name_and_company`
is not part of the provided sources; §6 of the spec gives the Metadata
Store contract `find_by_name(tenant_id, name) -> Document?`, a
tenant-scoped lookup by file name. -/
def find_document_by_name_and_company (store : List StoredDoc)
    (filename company_id : String) : Option StoredDoc :=
  store.find? (fun d => d.file_name == filename && d.company_id == company_id)

/-- Outcome of parsing the optional `metadata_json` form field in
`upload_document`: absent, a JSON object, valid JSON that is not an
object, or unparsable text. -/
inductive MetadataForm where
  | absent
  | jsonObject
  | jsonNonObject
  | invalidJson
deriving DecidableEq, Repr

/-- The error taxonomy surfaced by `upload_document`, named after the
spec's §7 taxonomy; the HTTP codes raised by the source are noted:
`unsupportedMediaType` 415, `invalidMetadata` 400 (InvalidArgument),
`alreadyExists` 409 (carrying the existing document's status, which the
source interpolates into the conflict detail), `dbUnavailable` and
`storageUnavailable` 503, `internalErr` 500. -/
inductive UploadError where
  | unsupportedMediaType
  | invalidMetadata
  | alreadyExists (existingStatus : DocumentStatus)
  | dbUnavailable
  | storageUnavailable
  | internalErr
deriving DecidableEq, Repr

/-- Outcomes of the backend calls made by one `upload_document` request:
the duplicate-check store contents and whether the record creation, the
MinIO upload and the Celery enqueue succeed. -/
structure UploadEnv where
  store : List StoredDoc
  dbCreateOk : Bool
  minioOk : Bool
  enqueueOk : Bool
deriving DecidableEq, Repr

/-- An upload request as received by `upload_document`: headers,
file name, declared content type, the raw file bytes, and the parse
outcome of the metadata form field. -/
structure UploadRequest where
  company_id : String
  user_id : String
  filename : String
  content_type : String
  fileBytes : List UInt8
  metadata_form : MetadataForm
deriving DecidableEq, Repr

/-- The `upload_document` endpoint of
`ingest-service/app/api/v1/endpoints/ingest.py` (lines 181-354), over the
outcomes of its backend calls. Steps, in source order: (1) content-type
validation against `settings.SUPPORTED_CONTENT_TYPES`; (2) metadata JSON
validation; (3) duplicate check — an existing document with the same
file name and company whose status is not ERROR aborts with 409;
(4) create the record in PENDING; (5) upload the bytes to MinIO at
`company_id/document_id/filename` (on failure the document is marked
ERROR and 503 is raised); (6) update the record to UPLOADED; (7) enqueue
the Celery task (on failure the document is marked ERROR and 500 is
raised). The file bytes are never inspected: no step branches on
`fileBytes` (its length only flows into the MinIO put effect). -/
def upload_document (supported : List String) (env : UploadEnv)
    (req : UploadRequest) (newDocId : String) :
    Except UploadError DocumentStatus × List Effect :=
  -- Step 1: content-type validation.
  if req.content_type ∉ supported then
    (.error .unsupportedMediaType, [])
  -- Step 2: metadata validation.
  else if req.metadata_form = MetadataForm.invalidJson ∨
      req.metadata_form = MetadataForm.jsonNonObject then
    (.error .invalidMetadata, [])
  else
    -- Step 3: duplicate check.
    match find_document_by_name_and_company env.store req.filename req.company_id with
    | some existing_doc =>
      if existing_doc.status ≠ DocumentStatus.error then
        (.error (.alreadyExists existing_doc.status), [])
      else
        upload_document_create supported env req newDocId
    | none => upload_document_create supported env req newDocId
where
  /-- Steps 4-7 of `upload_document`, shared by the no-duplicate and the
  existing-document-in-ERROR paths. -/
  upload_document_create (_supported : List String) (env : UploadEnv)
      (req : UploadRequest) (newDocId : String) :
      Except UploadError DocumentStatus × List Effect :=
    let object_name := req.company_id ++ "/" ++ newDocId ++ "/" ++ req.filename
    -- Step 4: create the PENDING record.
    if !env.dbCreateOk then
      (.error .dbUnavailable, [])
    else if !env.minioOk then
      -- Step 5 failure: mark ERROR, raise 503.
      (.error .storageUnavailable,
        [Effect.dbCreate .pending,
         Effect.dbUpdate .error none (some "MinIO upload failed")])
    else if !env.enqueueOk then
      -- Step 7 failure: mark ERROR, raise 500.
      (.error .internalErr,
        [Effect.dbCreate .pending,
         Effect.minioPut object_name req.fileBytes.length,
         Effect.dbUpdate .uploaded none none,
         Effect.dbUpdate .error none (some "Failed to queue processing task")])
    else
      (.ok .uploaded,
        [Effect.dbCreate .pending,
         Effect.minioPut object_name req.fileBytes.length,
         Effect.dbUpdate .uploaded none none,
         Effect.enqueueTask newDocId])

/-- The error taxonomy surfaced by `retry_ingestion`: `notFound` 404,
`conflict` 409 (carrying the current non-ERROR status, which the source
interpolates into the detail), `dbUnavailable` 503, `internalErr` 500
(enqueue failure). -/
inductive RetryError where
  | notFound
  | conflict (currentStatus : DocumentStatus)
  | dbUnavailable
  | internalErr
deriving DecidableEq, Repr

/-- Result of one `retry_ingestion` call: the response, the final
metadata-store row (when the document exists), and the effects issued. -/
structure RetryResult where
  response : Except RetryError DocumentStatus
  finalDoc : Option DocRecord
  effects : List Effect
deriving Repr

/-- The `retry_ingestion` endpoint of
`ingest-service/app/api/v1/endpoints/ingest.py` (lines 745-827), over the
fetched record and the outcome of the Celery enqueue. Steps, in source
order: (1) fetch the record, 404 when absent; 409 when its status is not
ERROR; (2) `update_document_status(document_id, PROCESSING,
chunk_count=None, error_message=None)` — clearing the error message;
(3) re-enqueue the processing task with a payload built from the stored
`file_name`/`file_type` (no object-store access: the already-stored
object is reused and `minio_object_name` is untouched); on enqueue
failure a 500 is raised and the document is left in PROCESSING (the
source comments that reverting to ERROR is deliberately not attempted). -/
def retry_ingestion (fetched : Option DocRecord) (documentId : String)
    (enqueueOk : Bool) : RetryResult :=
  match fetched with
  | none => { response := .error .notFound, finalDoc := none, effects := [] }
  | some doc =>
    if doc.status ≠ DocumentStatus.error then
      { response := .error (.conflict doc.status), finalDoc := some doc, effects := [] }
    else
      let doc' : DocRecord :=
        { doc with status := .processing, chunk_count := none, error_message := none }
      if enqueueOk then
        { response := .ok .processing, finalDoc := some doc',
          effects := [Effect.dbUpdate .processing none none,
                      Effect.enqueueTask documentId] }
      else
        { response := .error .internalErr, finalDoc := some doc',
          effects := [Effect.dbUpdate .processing none none] }

/-- Python exception classes relevant to `process_document.py`:
the classes named in the task decorator's `autoretry_for`, the classes
handled explicitly inside `async_process`, and the base class
`Exception`. -/
inductive PyExc where
  | valueError
  | notImplementedError
  | typeError
  | ioError
  | fileNotFoundError
  | connectionError
  | timeoutError
  | runtimeError
  | exception
deriving DecidableEq, Repr

/-- Python `isinstance` over the modelled classes: every class is an
instance of itself and of `Exception`; `FileNotFoundError` and
`ConnectionError` are subclasses of `OSError`/`IOError`. -/
def PyExc.isinstanceOf (e base : PyExc) : Bool :=
  e == base || base == .exception ||
    (e == .fileNotFoundError && base == .ioError) ||
    (e == .connectionError && base == .ioError)

/-- Configuration of a Celery task as set by the `@celery_app.task`
decorator. `time_limit`/`soft_time_limit` are `none` when the decorator
does not set them. -/
structure CeleryTaskConfig where
  autoretry_for : List PyExc
  max_retries : Nat
  countdown : Nat
  acks_late : Bool
  reject_on_worker_lost : Bool
  time_limit : Option Nat
  soft_time_limit : Option Nat
deriving DecidableEq, Repr

/-- The decorator of `process_document_haystack_task`
(`app/tasks/process_document.py` lines 97-109):
`autoretry_for=(IOError, ConnectionError, TimeoutError, Exception)`,
`retry_kwargs` with `max_retries=2` and `countdown=60`,
`reject_on_worker_lost=True`, `acks_late=True`. No `time_limit` or
`soft_time_limit` is set anywhere in the task configuration. -/
def processDocumentTaskConfig : CeleryTaskConfig :=
  { autoretry_for := [.ioError, .connectionError, .timeoutError, .exception]
    max_retries := 2
    countdown := 60
    acks_late := true
    reject_on_worker_lost := true
    time_limit := none
    soft_time_limit := none }

/-- The tuple caught by the first `except` clause of `async_process`
(line 262): `(ValueError, NotImplementedError, TypeError)`, the
non-retryable logical/data errors. -/
def caughtByLogicalHandler (e : PyExc) : Bool :=
  [PyExc.valueError, PyExc.notImplementedError, PyExc.typeError].any
    (fun base => e.isinstanceOf base)

/-- The Haystack pipeline result dictionary as consumed by step 5 of
`async_process` (lines 237-252): whether the writer output carries
`documents_written` and whether the splitter output carries a
`documents` list (of the given length). `none` models an absent or
non-conforming entry. -/
structure PipelineResult where
  writerDocumentsWritten : Option Nat
  splitterDocuments : Option Nat
deriving DecidableEq, Repr

/-- Step 5 of `async_process` (lines 237-252): take
`writer.documents_written` when present; otherwise fall back to the
length of `splitter.documents`; otherwise set the count to 0 (the source
logs a warning and continues). -/
def extractProcessedCount (r : PipelineResult) : Nat :=
  match r.writerDocumentsWritten with
  | some n => n
  | none =>
    match r.splitterDocuments with
    | some k => k
    | none => 0

/-- Outcomes of the external calls made by one `async_process` attempt:
the MinIO download (`.error e` models a raised exception of class `e`,
`.ok bytes` the downloaded byte string), whether the content type is in
`EXTERNAL_OCR_REQUIRED_CONTENT_TYPES`, whether
`get_converter_for_content_type` finds a converter, and the pipeline run
outcome. -/
structure TaskEnv where
  download : Except PyExc (List UInt8)
  ocrRequired : Bool
  converterAvailable : Bool
  pipelineRun : Except PyExc PipelineResult
deriving Repr

/-- What `async_process` does with its final exception state: return
normally (Celery acknowledges the task as successful) or let an
exception of the given class propagate to Celery. -/
inductive TaskDecision where
  | done
  | raiseExc (e : PyExc)
deriving DecidableEq, Repr

/-- Result of one `async_process` attempt: the metadata-store updates it
issued, in order, and whether it returned or raised. -/
structure TaskRunResult where
  effects : List Effect
  decision : TaskDecision
deriving DecidableEq, Repr

/-- Error message written on the non-retryable path of `async_process`
(line 267): `Task Error (No Retry): <class>: <text>`; the dynamic
exception text is not modelled. -/
def noRetryMsg (e : PyExc) : String :=
  "Task Error (No Retry): " ++ reprStr e

/-- Error message written on the retryable path of `async_process`
(line 282): `Task Error (Retry Pending): <class>: <text>`; the dynamic
exception text is not modelled. -/
def retryPendingMsg (e : PyExc) : String :=
  "Task Error (Retry Pending): " ++ reprStr e

/-- The two outer `except` clauses of `async_process` (lines 262-289),
reached by any exception raised after the PROCESSING update:
`(ValueError, NotImplementedError, TypeError)` marks ERROR with a
no-retry message and swallows the exception (the task returns normally);
every other exception marks ERROR with a retry-pending message and is
re-raised for Celery to see. -/
def outerHandle (eff0 : List Effect) (e : PyExc) : TaskRunResult :=
  if caughtByLogicalHandler e then
    { effects := eff0 ++ [Effect.dbUpdate .error none (some (noRetryMsg e))],
      decision := .done }
  else
    { effects := eff0 ++ [Effect.dbUpdate .error none (some (retryPendingMsg e))],
      decision := .raiseExc e }

/-- The body of `async_process` in `app/tasks/process_document.py`
(lines 130-296) over the outcomes of its external calls. In source
order: mark PROCESSING; download from MinIO (`FileNotFoundError` marks
ERROR "File not found in storage" and returns without retry; any other
download exception is re-raised into the outer handler); an empty
downloaded file marks ERROR "Downloaded file is empty" and returns;
a content type requiring OCR raises `NotImplementedError`; a content
type with no converter raises `ValueError`; both land in the outer
logical handler. A pipeline exception goes through the outer handler by
class. On pipeline success the chunk count is extracted
(`extractProcessedCount`) and the document is marked PROCESSED with that
count and a cleared error message. -/
def async_process (env : TaskEnv) : TaskRunResult :=
  let eff0 : List Effect := [Effect.dbUpdate .processing none none]
  match env.download with
  | .error e =>
    if e.isinstanceOf .fileNotFoundError then
      { effects := eff0 ++
          [Effect.dbUpdate .error none (some "File not found in storage")],
        decision := .done }
    else
      outerHandle eff0 e
  | .ok file_bytes =>
    if file_bytes.isEmpty then
      { effects := eff0 ++
          [Effect.dbUpdate .error none (some "Downloaded file is empty")],
        decision := .done }
    else if env.ocrRequired then
      outerHandle eff0 .notImplementedError
    else if !env.converterAvailable then
      outerHandle eff0 .valueError
    else
      match env.pipelineRun with
      | .error e => outerHandle eff0 e
      | .ok r =>
        { effects := eff0 ++
            [Effect.dbUpdate .processed (some (extractProcessedCount r)) none],
          decision := .done }

/-- The top level of `process_document_haystack_task`
(`app/tasks/process_document.py` lines 299-311): the Celery task body
wraps `asyncio.run(async_process())` in `try/except Exception` whose
handler only logs and then falls through to `pass` — the caught
exception is not re-raised (the source comment notes `raise
task_exception` would be needed for Celery to see it). Any exception
raised out of `async_process` that is an instance of `Exception` is
therefore swallowed and the task returns normally. -/
def process_document_haystack_task (env : TaskEnv) : TaskRunResult :=
  let r := async_process env
  match r.decision with
  | .done => r
  | .raiseExc e =>
    if e.isinstanceOf .exception then
      { effects := r.effects, decision := .done }
    else
      r

/-- What Celery does with one attempt's outcome. -/
inductive CeleryOutcome where
  | succeeded
  | retriedWithCountdown (countdown : Nat)
  | failedTerminally
deriving DecidableEq, Repr

/-- Celery's `autoretry_for` semantics applied to one attempt: a task
body that returns is acknowledged as successful; a task body that lets
an exception escape is re-dispatched with the configured countdown when
the exception is an instance of a class in `autoretry_for` and fewer
than `max_retries` retries have happened, and fails terminally
otherwise. The decision Celery sees is that of the whole task body
`process_document_haystack_task`, whose top-level handler swallows
every `Exception` raised by `async_process` — not the inner decision of
`async_process` itself. -/
def celeryHandle (cfg : CeleryTaskConfig) (dec : TaskDecision)
    (retries : Nat) : CeleryOutcome :=
  match dec with
  | .done => .succeeded
  | .raiseExc e =>
    if cfg.autoretry_for.any (fun base => e.isinstanceOf base) &&
        retries < cfg.max_retries then
      .retriedWithCountdown cfg.countdown
    else
      .failedTerminally

section OperationTheorems

/-- Claim C5: Retry fails with Conflict (naming the current status)
whenever the current status is not ERROR, and no effect is issued; when
the current status is ERROR, Retry clears error_message, sets status to
PROCESSING, and re-enqueues a processing job while leaving
`minio_object_name` unchanged and issuing no object-store write (the
already-stored object is reused, no bytes are re-uploaded). -/
theorem retry_rule (doc : DocRecord) (documentId : String) :
    (doc.status ≠ DocumentStatus.error →
      ∀ enqueueOk,
        (retry_ingestion (some doc) documentId enqueueOk).response =
          Except.error (RetryError.conflict doc.status) ∧
        (retry_ingestion (some doc) documentId enqueueOk).effects = []) ∧
    (doc.status = DocumentStatus.error →
      (retry_ingestion (some doc) documentId true).response =
        Except.ok DocumentStatus.processing ∧
      (retry_ingestion (some doc) documentId true).finalDoc =
        some { doc with status := DocumentStatus.processing,
                        chunk_count := none, error_message := none } ∧
      (retry_ingestion (some doc) documentId true).finalDoc.map
          DocRecord.minio_object_name = some doc.minio_object_name ∧
      (retry_ingestion (some doc) documentId true).effects =
        [Effect.dbUpdate DocumentStatus.processing none none,
         Effect.enqueueTask documentId] ∧
      (retry_ingestion (some doc) documentId true).effects.all
          (fun ef => !ef.isObjectStoreWrite) = true) := by
  constructor
  · intro h enqueueOk
    simp [retry_ingestion, h]
  · intro h
    simp [retry_ingestion, h, Effect.isObjectStoreWrite]

/-- Witness for C5: the spec's example pair — Retry on a PROCESSED
document fails with Conflict, Retry on an ERROR document yields
PROCESSING. -/
theorem retry_rule_witness :
    ((retry_ingestion (some ⟨.processed, some 3, none, some "T/d1/r.pdf"⟩)
        "d1" true).response =
      Except.error (RetryError.conflict DocumentStatus.processed)) ∧
    ((retry_ingestion (some ⟨.error, none, some "boom", some "T/d1/r.pdf"⟩)
        "d1" true).response = Except.ok DocumentStatus.processing) :=
  ⟨((retry_rule ⟨.processed, some 3, none, some "T/d1/r.pdf"⟩ "d1").1
      (by decide) true).1,
   ((retry_rule ⟨.error, none, some "boom", some "T/d1/r.pdf"⟩ "d1").2 rfl).1⟩

/-- Claim C6: with a valid content type and metadata, an upload whose
tenant-scoped name lookup finds a document in a non-ERROR status fails
with AlreadyExists naming that status; when the lookup finds only an
ERROR document, or no document of that name exists for the requesting
tenant (same file name under a different tenant only), the upload
proceeds and succeeds when the backends are healthy. -/
theorem upload_duplicate_rule (supported : List String) (env : UploadEnv)
    (req : UploadRequest) (newDocId : String)
    (hct : req.content_type ∈ supported)
    (hmd : req.metadata_form = MetadataForm.absent ∨
      req.metadata_form = MetadataForm.jsonObject) :
    (∀ d, find_document_by_name_and_company env.store req.filename req.company_id =
        some d → d.status ≠ DocumentStatus.error →
      (upload_document supported env req newDocId).1 =
        Except.error (UploadError.alreadyExists d.status)) ∧
    (env.dbCreateOk = true → env.minioOk = true → env.enqueueOk = true →
      (∀ d, find_document_by_name_and_company env.store req.filename req.company_id =
          some d → d.status = DocumentStatus.error →
        (upload_document supported env req newDocId).1 =
          Except.ok DocumentStatus.uploaded) ∧
      ((∀ d ∈ env.store, d.file_name = req.filename →
          d.company_id ≠ req.company_id) →
        (upload_document supported env req newDocId).1 =
          Except.ok DocumentStatus.uploaded)) := by
  have hmd' : ¬(req.metadata_form = MetadataForm.invalidJson ∨
      req.metadata_form = MetadataForm.jsonNonObject) := by
    rcases hmd with h | h <;> simp [h]
  refine ⟨?_, ?_⟩
  · intro d hfind hde
    simp [upload_document, hct, hmd', hfind, hde]
  · intro hdb hminio henq
    refine ⟨?_, ?_⟩
    · intro d hfind hde
      simp [upload_document, upload_document.upload_document_create,
        hct, hmd', hfind, hde, hdb, hminio, henq]
    · intro hno
      have hfind : find_document_by_name_and_company env.store req.filename
          req.company_id = none := by
        unfold find_document_by_name_and_company
        rw [List.find?_eq_none]
        intro d hd
        simp only [Bool.and_eq_true, beq_iff_eq, not_and]
        intro h1 h2
        exact absurd h2 (hno d hd h1)
      simp [upload_document, upload_document.upload_document_create,
        hct, hmd', hfind, hdb, hminio, henq]

/-- Witness for C6: the spec's example — tenant T already holds
"report.pdf" in PROCESSED, so T's re-upload fails naming PROCESSED; the
same file name under tenant U succeeds; and if T's existing document is
in ERROR, T's upload also succeeds. -/
theorem upload_duplicate_rule_witness :
    (upload_document ["application/pdf"]
      { store := [⟨"d0", "T", "report.pdf", .processed⟩],
        dbCreateOk := true, minioOk := true, enqueueOk := true }
      { company_id := "T", user_id := "u", filename := "report.pdf",
        content_type := "application/pdf", fileBytes := [1],
        metadata_form := .absent } "d1").1 =
      Except.error (UploadError.alreadyExists DocumentStatus.processed) ∧
    (upload_document ["application/pdf"]
      { store := [⟨"d0", "T", "report.pdf", .processed⟩],
        dbCreateOk := true, minioOk := true, enqueueOk := true }
      { company_id := "U", user_id := "u", filename := "report.pdf",
        content_type := "application/pdf", fileBytes := [1],
        metadata_form := .absent } "d1").1 =
      Except.ok DocumentStatus.uploaded ∧
    (upload_document ["application/pdf"]
      { store := [⟨"d0", "T", "report.pdf", .error⟩],
        dbCreateOk := true, minioOk := true, enqueueOk := true }
      { company_id := "T", user_id := "u", filename := "report.pdf",
        content_type := "application/pdf", fileBytes := [1],
        metadata_form := .absent } "d1").1 =
      Except.ok DocumentStatus.uploaded :=
  ⟨(upload_duplicate_rule ["application/pdf"]
      { store := [⟨"d0", "T", "report.pdf", .processed⟩],
        dbCreateOk := true, minioOk := true, enqueueOk := true }
      { company_id := "T", user_id := "u", filename := "report.pdf",
        content_type := "application/pdf", fileBytes := [1],
        metadata_form := .absent } "d1" (by decide) (Or.inl rfl)).1
      ⟨"d0", "T", "report.pdf", .processed⟩ (by decide) (by decide),
   (((upload_duplicate_rule ["application/pdf"]
      { store := [⟨"d0", "T", "report.pdf", .processed⟩],
        dbCreateOk := true, minioOk := true, enqueueOk := true }
      { company_id := "U", user_id := "u", filename := "report.pdf",
        content_type := "application/pdf", fileBytes := [1],
        metadata_form := .absent } "d1" (by decide) (Or.inl rfl)).2
      rfl rfl rfl).2 (by decide)),
   (((upload_duplicate_rule ["application/pdf"]
      { store := [⟨"d0", "T", "report.pdf", .error⟩],
        dbCreateOk := true, minioOk := true, enqueueOk := true }
      { company_id := "T", user_id := "u", filename := "report.pdf",
        content_type := "application/pdf", fileBytes := [1],
        metadata_form := .absent } "d1" (by decide) (Or.inl rfl)).2
      rfl rfl rfl).1 ⟨"d0", "T", "report.pdf", .error⟩ (by decide) rfl)⟩

/-- Claim C10: when Retry's status update to PROCESSING has happened and
the enqueue step then fails, the call fails with an Internal error while
the document remains in PROCESSING with its error_message cleared — the
prior ERROR status and message are not restored. -/
theorem retry_enqueue_failure_leaves_processing (doc : DocRecord)
    (documentId : String) (hs : doc.status = DocumentStatus.error) :
    (retry_ingestion (some doc) documentId false).response =
      Except.error RetryError.internalErr ∧
    (retry_ingestion (some doc) documentId false).finalDoc =
      some { doc with status := DocumentStatus.processing,
                      chunk_count := none, error_message := none } ∧
    (retry_ingestion (some doc) documentId false).effects =
      [Effect.dbUpdate DocumentStatus.processing none none] := by
  simp [retry_ingestion, hs]

/-- Witness for C10: a document in ERROR with message "boom" whose retry
enqueue fails ends in PROCESSING with the message cleared, and the call
reports an internal error. -/
theorem retry_enqueue_failure_leaves_processing_witness :
    (retry_ingestion (some ⟨.error, some 7, some "boom", some "T/d1/r.pdf"⟩)
        "d1" false).response = Except.error RetryError.internalErr ∧
    (retry_ingestion (some ⟨.error, some 7, some "boom", some "T/d1/r.pdf"⟩)
        "d1" false).finalDoc =
      some { status := DocumentStatus.processing, chunk_count := none,
             error_message := none, minio_object_name := some "T/d1/r.pdf" } ∧
    (retry_ingestion (some ⟨.error, some 7, some "boom", some "T/d1/r.pdf"⟩)
        "d1" false).effects =
      [Effect.dbUpdate DocumentStatus.processing none none] :=
  retry_enqueue_failure_leaves_processing
    ⟨.error, some 7, some "boom", some "T/d1/r.pdf"⟩ "d1" rfl

end OperationTheorems


section TaskTheorems

/-- Concrete task environment: a one-byte file downloads fine, the
content type needs no OCR and has a converter, and the pipeline run
raises TimeoutError. -/
def timeoutPipelineEnv : TaskEnv :=
  { download := .ok [1], ocrRequired := false, converterAvailable := true,
    pipelineRun := .error PyExc.timeoutError }

/-- Concrete task environment: a one-byte file downloads fine and the
pipeline succeeds but neither the writer nor the splitter output reports
a chunk count. -/
def noCountPipelineEnv : TaskEnv :=
  { download := .ok [1], ocrRequired := false, converterAvailable := true,
    pipelineRun := .ok { writerDocumentsWritten := none, splitterDocuments := none } }

/-- Concrete task environment: the downloaded object is empty (the
pipeline outcome is never reached). -/
def emptyDownloadEnv : TaskEnv :=
  { download := .ok ([] : List UInt8), ocrRequired := false,
    converterAvailable := true,
    pipelineRun := .ok { writerDocumentsWritten := none, splitterDocuments := none } }

/-- Counterexample to claim C7: no dispatch attempt runs under a hard
wall-clock timeout — the task decorator of
`process_document_haystack_task` configures neither `time_limit` nor
`soft_time_limit`, so the claim's premise that every attempt is bounded
by a wall-clock timeout is false of the program. -/
theorem no_wall_clock_timeout_configured_counterexample :
    processDocumentTaskConfig.time_limit = none ∧
    processDocumentTaskConfig.soft_time_limit = none :=
  ⟨rfl, rfl⟩

/-- Amended claim C7: no hard wall-clock timeout is configured on a
dispatch attempt. A TimeoutError raised during an attempt is
nonetheless terminal in effect: `async_process` marks the document
ERROR (with a "Retry Pending" message) and re-raises, but the task's
top-level `except Exception` handler swallows the exception, so the
task body returns normally, Celery acknowledges the attempt as
successful, and the job is never re-dispatched — even though
TimeoutError is listed in the configured `autoretry_for`, which
therefore never fires. -/
theorem timeout_swallowed_terminal_no_redispatch (env : TaskEnv)
    (file_bytes : List UInt8) (retries : Nat)
    (hd : env.download = .ok file_bytes)
    (hb : file_bytes.isEmpty = false)
    (hocr : env.ocrRequired = false)
    (hconv : env.converterAvailable = true)
    (hp : env.pipelineRun = .error PyExc.timeoutError) :
    (async_process env).decision = TaskDecision.raiseExc PyExc.timeoutError ∧
    (process_document_haystack_task env).effects =
      [Effect.dbUpdate .processing none none,
       Effect.dbUpdate .error none (some (retryPendingMsg PyExc.timeoutError))] ∧
    (process_document_haystack_task env).decision = TaskDecision.done ∧
    celeryHandle processDocumentTaskConfig
      (process_document_haystack_task env).decision retries =
      CeleryOutcome.succeeded ∧
    processDocumentTaskConfig.time_limit = none ∧
    PyExc.timeoutError ∈ processDocumentTaskConfig.autoretry_for := by
  refine ⟨?_, ?_, ?_, ?_, rfl, by decide⟩ <;>
    simp [process_document_haystack_task, async_process, outerHandle,
      caughtByLogicalHandler, PyExc.isinstanceOf, celeryHandle,
      hd, hb, hocr, hconv, hp]

/-- Witness for the amended C7 at a concrete environment with no prior
retries: the timed-out attempt ends with the document in ERROR and the
task acknowledged as successful, never re-dispatched. -/
theorem timeout_swallowed_terminal_no_redispatch_witness :
    (async_process timeoutPipelineEnv).decision =
      TaskDecision.raiseExc PyExc.timeoutError ∧
    (process_document_haystack_task timeoutPipelineEnv).effects =
      [Effect.dbUpdate .processing none none,
       Effect.dbUpdate .error none (some (retryPendingMsg PyExc.timeoutError))] ∧
    (process_document_haystack_task timeoutPipelineEnv).decision =
      TaskDecision.done ∧
    celeryHandle processDocumentTaskConfig
      (process_document_haystack_task timeoutPipelineEnv).decision 0 =
      CeleryOutcome.succeeded ∧
    processDocumentTaskConfig.time_limit = none ∧
    PyExc.timeoutError ∈ processDocumentTaskConfig.autoretry_for :=
  timeout_swallowed_terminal_no_redispatch timeoutPipelineEnv [1] 0
    rfl rfl rfl rfl rfl

/-- Counterexample to claim C8: when neither the writer output nor the
splitter output determines the chunk count, the run is not treated as an
internal error — it completes normally (the task returns, Celery records
success) and the document is marked PROCESSED with a silently defaulted
chunk count of 0. -/
theorem undetermined_count_completes_processed_counterexample :
    (async_process noCountPipelineEnv).effects =
      [Effect.dbUpdate .processing none none,
       Effect.dbUpdate .processed (some 0) none] ∧
    (async_process noCountPipelineEnv).decision = TaskDecision.done ∧
    celeryHandle processDocumentTaskConfig
      (async_process noCountPipelineEnv).decision 0 =
      CeleryOutcome.succeeded :=
  ⟨rfl, rfl, rfl⟩

/-- Amended claim C8: on a successful pipeline run the chunk count
reported to the metadata store is the writer stage's `documents_written`
when the writer reports it; when the writer does not report it, the
count falls back to the splitter's document count, and when neither is
available it silently defaults to 0 — in every case the run still
completes as PROCESSED with that count rather than failing as an
internal error. -/
theorem chunk_count_extraction_and_success (env : TaskEnv)
    (file_bytes : List UInt8) (r : PipelineResult)
    (hd : env.download = .ok file_bytes)
    (hb : file_bytes.isEmpty = false)
    (hocr : env.ocrRequired = false)
    (hconv : env.converterAvailable = true)
    (hp : env.pipelineRun = .ok r) :
    (async_process env).effects =
      [Effect.dbUpdate .processing none none,
       Effect.dbUpdate .processed (some (extractProcessedCount r)) none] ∧
    (async_process env).decision = TaskDecision.done ∧
    (∀ n, r.writerDocumentsWritten = some n → extractProcessedCount r = n) ∧
    (∀ k, r.writerDocumentsWritten = none → r.splitterDocuments = some k →
      extractProcessedCount r = k) ∧
    (r.writerDocumentsWritten = none → r.splitterDocuments = none →
      extractProcessedCount r = 0) := by
  refine ⟨?_, ?_, ?_, ?_, ?_⟩
  · simp [async_process, hd, hb, hocr, hconv, hp]
  · simp [async_process, hd, hb, hocr, hconv, hp]
  · intro n hw; simp [extractProcessedCount, hw]
  · intro k hw hs; simp [extractProcessedCount, hw, hs]
  · intro hw hs; simp [extractProcessedCount, hw, hs]

/-- Concrete pipeline result whose writer reports 12 written chunks
while the splitter produced 7 documents. -/
def writerReportsTwelve : PipelineResult :=
  { writerDocumentsWritten := some 12, splitterDocuments := some 7 }

/-- Concrete task environment around `writerReportsTwelve`. -/
def writerReportsTwelveEnv : TaskEnv :=
  { download := .ok [1], ocrRequired := false, converterAvailable := true,
    pipelineRun := .ok writerReportsTwelve }

/-- Witness for the amended C8: a writer that reports 12 written chunks
yields a PROCESSED update carrying exactly the extracted count, and the
extraction equations hold at this concrete result. -/
theorem chunk_count_extraction_and_success_witness :
    (async_process writerReportsTwelveEnv).effects =
      [Effect.dbUpdate .processing none none,
       Effect.dbUpdate .processed (some (extractProcessedCount writerReportsTwelve)) none] ∧
    (async_process writerReportsTwelveEnv).decision = TaskDecision.done ∧
    (∀ n, writerReportsTwelve.writerDocumentsWritten = some n →
      extractProcessedCount writerReportsTwelve = n) ∧
    (∀ k, writerReportsTwelve.writerDocumentsWritten = none →
      writerReportsTwelve.splitterDocuments = some k →
      extractProcessedCount writerReportsTwelve = k) ∧
    (writerReportsTwelve.writerDocumentsWritten = none →
      writerReportsTwelve.splitterDocuments = none →
      extractProcessedCount writerReportsTwelve = 0) :=
  chunk_count_extraction_and_success writerReportsTwelveEnv [1]
    writerReportsTwelve rfl rfl rfl rfl rfl

/-- Concrete upload environment with an empty metadata store and healthy
backends. -/
def freshHealthyEnv : UploadEnv :=
  { store := [], dbCreateOk := true, minioOk := true, enqueueOk := true }

/-- Concrete upload request for tenant T whose file bytes are empty. -/
def emptyPdfRequest : UploadRequest :=
  { company_id := "T", user_id := "u", filename := "report.pdf",
    content_type := "application/pdf", fileBytes := [],
    metadata_form := .absent }

/-- Counterexample to claim C9: an upload whose file bytes are empty is
not rejected with InvalidArgument at the ingestion boundary — with a
supported content type, no duplicate and healthy backends it is accepted
(status UPLOADED), stored as a zero-byte object put, and enqueued. -/
theorem empty_upload_accepted_counterexample :
    (upload_document ["application/pdf"] freshHealthyEnv emptyPdfRequest "d1").1 =
      Except.ok DocumentStatus.uploaded ∧
    (upload_document ["application/pdf"] freshHealthyEnv emptyPdfRequest "d1").2 =
      [Effect.dbCreate .pending,
       Effect.minioPut "T/d1/report.pdf" 0,
       Effect.dbUpdate .uploaded none none,
       Effect.enqueueTask "d1"] :=
  ⟨rfl, rfl⟩

/-- Amended claim C9: `upload_document` performs no emptiness check on
the file bytes — an empty upload with a supported content type, valid
metadata and no duplicate is accepted (status UPLOADED) rather than
being rejected with InvalidArgument; the emptiness is detected only
later, during processing, where `async_process` downloads the empty
object, marks the document ERROR with message "Downloaded file is
empty", and returns without retrying (Celery records success). -/
theorem empty_bytes_accepted_then_fails_in_processing
    (supported : List String) (env : UploadEnv) (req : UploadRequest)
    (newDocId : String) (tenv : TaskEnv)
    (hct : req.content_type ∈ supported)
    (hmd : req.metadata_form = MetadataForm.absent ∨
      req.metadata_form = MetadataForm.jsonObject)
    (hfind : find_document_by_name_and_company env.store req.filename
      req.company_id = none)
    (hdb : env.dbCreateOk = true) (hm : env.minioOk = true)
    (he : env.enqueueOk = true)
    (hbytes : req.fileBytes = [])
    (hdl : tenv.download = .ok ([] : List UInt8)) :
    (upload_document supported env req newDocId).1 =
      Except.ok DocumentStatus.uploaded ∧
    (async_process tenv).effects =
      [Effect.dbUpdate .processing none none,
       Effect.dbUpdate .error none (some "Downloaded file is empty")] ∧
    (async_process tenv).decision = TaskDecision.done ∧
    celeryHandle processDocumentTaskConfig (async_process tenv).decision 0 =
      CeleryOutcome.succeeded := by
  have hmd' : ¬(req.metadata_form = MetadataForm.invalidJson ∨
      req.metadata_form = MetadataForm.jsonNonObject) := by
    rcases hmd with h | h <;> simp [h]
  refine ⟨?_, ?_, ?_, ?_⟩
  · simp [upload_document, upload_document.upload_document_create,
      hct, hmd', hfind, hdb, hm, he]
  · simp [async_process, hdl]
  · simp [async_process, hdl]
  · simp [async_process, hdl, celeryHandle]

/-- Witness for the amended C9 at concrete inputs: the empty
"report.pdf" upload for tenant T is accepted, and a worker attempt that
downloads the empty object marks ERROR and finishes without retry. -/
theorem empty_bytes_accepted_then_fails_in_processing_witness :
    (upload_document ["application/pdf"] freshHealthyEnv emptyPdfRequest "d1").1 =
      Except.ok DocumentStatus.uploaded ∧
    (async_process emptyDownloadEnv).effects =
      [Effect.dbUpdate .processing none none,
       Effect.dbUpdate .error none (some "Downloaded file is empty")] ∧
    (async_process emptyDownloadEnv).decision = TaskDecision.done ∧
    celeryHandle processDocumentTaskConfig (async_process emptyDownloadEnv).decision 0 =
      CeleryOutcome.succeeded :=
  empty_bytes_accepted_then_fails_in_processing
    ["application/pdf"] freshHealthyEnv emptyPdfRequest "d1" emptyDownloadEnv
    (by decide) (Or.inl rfl) rfl rfl rfl rfl rfl rfl

end TaskTheorems
